import Mathlib

/-!
Verification development for the FluidSimulator repository: a 2-D grid-based
incompressible fluid simulator (velocity, density, temperature fields) driven
by user-placed sources.  The repository source under src/ is the header
SimState.h, which declares the data model and every method but contains no
method bodies; each behavioral definition below is therefore modelled from
the specification text, as marked in its doc comment.  Grids are embedded as
functions from linear indices to rational numbers, with the linear index
convention of the header: index = i + (N+2)*j on an (N+2) x (N+2) grid.
-/

/-- Linear cell index of the header: i + (N+2)*j. -/
def ix (N i j : Nat) : Nat := i + (N + 2) * j

/-- A grid buffer: values at linear cell indices. -/
def Grid : Type := Nat → ℚ

/-- The zero buffer. -/
def zeroGrid : Grid := fun _ => 0

/-- Interior cells, row-major (j outer, i inner), as produced by the nested
loops of the solver sweeps. -/
def interiorList (N : Nat) : List Nat :=
  (List.range N).flatMap (fun jj => (List.range N).map (fun ii => ix N (ii + 1) (jj + 1)))

/-- A linear index k decodes to column k % (N+2) and row k / (N+2); it is
interior when both lie in [1, N]. -/
def isInterior (N k : Nat) : Prop :=
  1 ≤ k % (N + 2) ∧ k % (N + 2) ≤ N ∧ 1 ≤ k / (N + 2) ∧ k / (N + 2) ≤ N

instance (N k : Nat) : Decidable (isInterior N k) :=
  inferInstanceAs (Decidable (_ ∧ _ ∧ _ ∧ _))

/-- Modelled from the spec: the edge pass of SetBoundary (the header declares
SimState::SetBoundary without a body).  A velocity component normal to a wall
(b = 1 on the left/right walls, b = 2 on the bottom/top walls) is negated from
the adjacent interior cell; every other boundary cell copies the adjacent
interior cell (zero gradient). -/
def edgeVal (N b : Nat) (x : Grid) (i j : Nat) : ℚ :=
  if i = 0 then (if b = 1 then -(x (ix N 1 j)) else x (ix N 1 j))
  else if i = N + 1 then (if b = 1 then -(x (ix N N j)) else x (ix N N j))
  else if j = 0 then (if b = 2 then -(x (ix N i 1)) else x (ix N i 1))
  else if j = N + 1 then (if b = 2 then -(x (ix N i N)) else x (ix N i N))
  else x (ix N i j)

/-- Modelled from the spec: SetBoundary (body absent from the header).  Edge
cells follow the edge pass; each corner cell is the average of its two
adjacent edge cells, computed from the freshly set edge values. -/
def setBnd (N b : Nat) (x : Grid) : Grid := fun k =>
  let i := k % (N + 2)
  let j := k / (N + 2)
  if i = 0 ∧ j = 0 then (edgeVal N b x 1 0 + edgeVal N b x 0 1) / 2
  else if i = 0 ∧ j = N + 1 then (edgeVal N b x 1 (N + 1) + edgeVal N b x 0 N) / 2
  else if i = N + 1 ∧ j = 0 then (edgeVal N b x N 0 + edgeVal N b x (N + 1) 1) / 2
  else if i = N + 1 ∧ j = N + 1 then (edgeVal N b x N (N + 1) + edgeVal N b x (N + 1) N) / 2
  else edgeVal N b x i j

/-- Modelled from the spec: one Gauss-Seidel-style relaxation pass over a list
of cells.  Each visited cell k is updated in place (later cells see earlier
updates) to (x0 k + a k * (sum of the 4-neighborhood)) / c k. -/
def gsFold (N : Nat) (x0 aOf cOf : Grid) : List Nat → Grid → Grid
  | [], g => g
  | k :: l, g =>
      gsFold N x0 aOf cOf l
        (Function.update g k
          ((x0 k + aOf k * (g (k - 1) + g (k + 1) + g (k - (N + 2)) + g (k + (N + 2)))) / cOf k))

/-- Modelled from the spec: the shared relaxation primitive.  It performs
steps sweeps of Gauss-Seidel relaxation over the interior cells, re-applying
the boundary conditions after every sweep, starting from the guess init. -/
def gsSolve (N steps b : Nat) (x0 aOf cOf : Grid) (init : Grid) : Grid :=
  (fun g => setBnd N b (gsFold N x0 aOf cOf (interiorList N) g))^[steps] init

/-- Modelled from the spec: DiffuseImproved (body absent).  Solves the
implicit diffusion equation by relaxation with the per-cell coefficient
a = dt * diffusivity * N^2 / lengthScale^2 supplied as aOf, denominator
1 + 4*a, initial guess the input field itself. -/
def diffuse (N steps b : Nat) (aOf : Grid) (x0 : Grid) : Grid :=
  gsSolve N steps b x0 aOf (fun k => 1 + 4 * aOf k) x0

/-- Clamp a rational position to the closed range [lo, hi]. -/
def clampQ (x lo hi : ℚ) : ℚ := if x < lo then lo else if hi < x then hi else x

/-- Modelled from the spec: Advect (body absent).  Semi-Lagrangian transport:
each interior cell traces backward along the transport velocity scaled by
dt*N, clamps the originating position to [1/2, N + 1/2], and bilinearly
interpolates the quantity from the previous buffer; boundary conditions are
re-applied afterwards. -/
def advect (N b : Nat) (d0 u v : Grid) (dt : ℚ) : Grid :=
  let dt0 := dt * (N : ℚ)
  setBnd N b (fun k =>
    if isInterior N k then
      let i := k % (N + 2)
      let j := k / (N + 2)
      let xp := clampQ ((i : ℚ) - dt0 * u k) (1 / 2) ((N : ℚ) + 1 / 2)
      let yp := clampQ ((j : ℚ) - dt0 * v k) (1 / 2) ((N : ℚ) + 1 / 2)
      let i0 := (⌊xp⌋).toNat
      let j0 := (⌊yp⌋).toNat
      let s1 := xp - (i0 : ℚ)
      let t1 := yp - (j0 : ℚ)
      (1 - s1) * ((1 - t1) * d0 (ix N i0 j0) + t1 * d0 (ix N i0 (j0 + 1)))
        + s1 * ((1 - t1) * d0 (ix N (i0 + 1) j0) + t1 * d0 (ix N (i0 + 1) (j0 + 1)))
    else d0 k)

/-- Modelled from the spec: the discrete divergence grid of HodgeProjection,
-(1/2)*h*(u_right - u_left + v_up - v_down) with h = 1/N on interior cells,
zero elsewhere, with scalar boundary conditions applied. -/
def divGrid (N : Nat) (u v : Grid) : Grid :=
  setBnd N 0 (fun k =>
    if isInterior N k then
      -(u (k + 1) - u (k - 1) + v (k + (N + 2)) - v (k - (N + 2))) / (2 * (N : ℚ))
    else 0)

/-- Per-cell discrete divergence of a velocity field (central differences). -/
def discreteDiv (N : Nat) (u v : Grid) (k : Nat) : ℚ :=
  (u (k + 1) - u (k - 1) + v (k + (N + 2)) - v (k - (N + 2))) / 2

/-- Modelled from the spec: HodgeProjection (body absent).  Computes the
discrete divergence, solves the discrete Poisson equation for a scalar
potential by the shared relaxation primitive (coefficient 1, denominator 4,
zero initial guess), then subtracts the discrete gradient of the potential
from the velocity field, re-applying velocity boundary conditions. -/
def hodgeProject (N steps : Nat) (u v : Grid) : Grid × Grid :=
  let dv := divGrid N u v
  let p := gsSolve N steps 0 dv (fun _ => 1) (fun _ => 4) zeroGrid
  let u2 := setBnd N 1 (fun k =>
    if isInterior N k then u k - (N : ℚ) * (p (k + 1) - p (k - 1)) / 2 else u k)
  let v2 := setBnd N 2 (fun k =>
    if isInterior N k then v k - (N : ℚ) * (p (k + (N + 2)) - p (k - (N + 2))) / 2 else v k)
  (u2, v2)

/-- Modelled from the spec: Dissipate (body absent).  Exponential dissipation
at the given decay rate, in the discrete form of dividing every cell by
1 + dt * rate. -/
def dissipateArr (x : Grid) (rate dt : ℚ) : Grid := fun k => x k / (1 + dt * rate)

/-- Pointwise additive staging: target plus dt times the staged buffer. -/
def addScaled (x s : Grid) (dt : ℚ) : Grid := fun k => x k + dt * s k

/-- The SimParams structure of the header: physical constants and solver
options.  The mass-ratio constant (massRatio in the header) is named
massFrac here. -/
structure SimParams where
  advancedCoefficients : Bool
  gravityOn : Bool
  temperatureOn : Bool
  solverSteps : Nat
  lengthScale : ℚ
  visc : ℚ
  diff : ℚ
  grav : ℚ
  airDens : ℚ
  massFrac : ℚ
  airTemp : ℚ
  diffTemp : ℚ
  densDecay : ℚ
  tempDecay : ℚ

/-- The SimFields structure of the header: three buffer generations (current,
previous, source) of the four channels. -/
structure SimFields where
  xVel : Grid
  yVel : Grid
  dens : Grid
  temp : Grid
  xVel_prev : Grid
  yVel_prev : Grid
  dens_prev : Grid
  temp_prev : Grid
  xVel_source : Grid
  yVel_source : Grid
  dens_source : Grid
  temp_source : Grid

/-- The SimState class of the header: grid resolution, parameter set and
field store. -/
structure SimState where
  N : Nat
  params : SimParams
  fields : SimFields

/-- Modelled from the spec: MixedTemperature (body absent).  Effective local
temperature of the air/gas mixture, blending the local temperature grid value
with the ambient air temperature, weighted by the mass-ratio constant. -/
def MixedTemperature (k : Nat) (p : SimParams) (f : SimFields) : ℚ :=
  p.massFrac * f.temp k + (1 - p.massFrac) * p.airTemp

/-- Modelled from the spec: MixedDensityAtAirTemp (body absent).  Effective
local density of the mixture at the ambient air temperature. -/
def MixedDensityAtAirTemp (k : Nat) (p : SimParams) (f : SimFields) : ℚ :=
  p.massFrac * f.dens k + (1 - p.massFrac) * p.airDens

/-- Modelled from the spec: MixedDensity (body absent).  Effective local
density of the mixture, with an ideal-gas temperature correction of the
air-temperature density. -/
def MixedDensity (k : Nat) (p : SimParams) (f : SimFields) : ℚ :=
  MixedDensityAtAirTemp k p f * p.airTemp / MixedTemperature k p f

/-- Modelled from the spec: AdjustedViscosity (body absent).  When
advancedCoefficients is false it returns the viscosity constant unchanged;
when true it scales it by the local mixture temperature. -/
def AdjustedViscosity (k : Nat) (p : SimParams) (f : SimFields) : ℚ :=
  if p.advancedCoefficients then p.visc * MixedTemperature k p f / p.airTemp else p.visc

/-- Modelled from the spec: AdjustedMassDiffusivity (body absent).  When
advancedCoefficients is false it returns the diffusion constant unchanged;
when true it scales it by the local mixture temperature. -/
def AdjustedMassDiffusivity (k : Nat) (p : SimParams) (f : SimFields) : ℚ :=
  if p.advancedCoefficients then p.diff * MixedTemperature k p f / p.airTemp else p.diff

/-- Modelled from the spec: AdjustedThermalDiffusivity (body absent).  When
advancedCoefficients is false it returns the thermal-diffusivity constant
unchanged; when true it scales it by the local mixture temperature. -/
def AdjustedThermalDiffusivity (k : Nat) (p : SimParams) (f : SimFields) : ℚ :=
  if p.advancedCoefficients then p.diffTemp * MixedTemperature k p f / p.airTemp else p.diffTemp

/-- Modelled from the spec: the buoyancy force of the velocity step,
proportional to grav * (airDens - mixedDensity) / referenceDensity and scaled
by the mass-ratio constant, with the ambient air density as the reference
density. -/
def buoyancyForce (k : Nat) (p : SimParams) (f : SimFields) : ℚ :=
  p.massFrac * p.grav * (p.airDens - MixedDensity k p f) / p.airDens

/-- Diffusion coefficient grid: a = dt * diffusivity * N^2 / lengthScale^2,
with the per-cell diffusivity function supplied as dFn. -/
def diffCoef (n : Nat) (p : SimParams) (dt : ℚ) (dFn : Nat → ℚ) : Grid :=
  fun k => dt * dFn k * (n : ℚ) ^ 2 / p.lengthScale ^ 2

/-- Stage one of the velocity update, x component: the previous velocity with
the staged wind sources added. -/
def velForceX (dt : ℚ) (s : SimState) : Grid :=
  addScaled s.fields.xVel_prev s.fields.xVel_source dt

/-- Stage one of the velocity update, y component: the previous velocity with
the staged wind sources added and, when gravity is on, the buoyancy force. -/
def velForceY (dt : ℚ) (s : SimState) : Grid :=
  if s.params.gravityOn then
    (fun k => addScaled s.fields.yVel_prev s.fields.yVel_source dt k
        + dt * buoyancyForce k s.params s.fields)
  else addScaled s.fields.yVel_prev s.fields.yVel_source dt

/-- The per-cell viscosity coefficient grid of the velocity diffusion. -/
def velViscCoef (dt : ℚ) (s : SimState) : Grid :=
  diffCoef s.N s.params dt (fun k => AdjustedViscosity k s.params s.fields)

/-- Stage two of the velocity update: the forced previous velocity diffused
into the current buffer. -/
def velDiffused (dt : ℚ) (s : SimState) : Grid × Grid :=
  (diffuse s.N s.params.solverSteps 1 (velViscCoef dt s) (velForceX dt s),
   diffuse s.N s.params.solverSteps 2 (velViscCoef dt s) (velForceY dt s))

/-- Stage three of the velocity update: the first divergence-removing
projection, applied to the diffused velocity. -/
def velProjected1 (dt : ℚ) (s : SimState) : Grid × Grid :=
  hodgeProject s.N s.params.solverSteps (velDiffused dt s).1 (velDiffused dt s).2

/-- Stage four of the velocity update: self-advection of the projected
velocity by backward tracing, with the pre-advection (projected) velocity as
the transport field for both components. -/
def velAdvected (dt : ℚ) (s : SimState) : Grid × Grid :=
  (advect s.N 1 (velProjected1 dt s).1 (velProjected1 dt s).1 (velProjected1 dt s).2 dt,
   advect s.N 2 (velProjected1 dt s).2 (velProjected1 dt s).1 (velProjected1 dt s).2 dt)

/-- Stage five of the velocity update: the second projection, applied to the
advected velocity. -/
def velProjected2 (dt : ℚ) (s : SimState) : Grid × Grid :=
  hodgeProject s.N s.params.solverSteps (velAdvected dt s).1 (velAdvected dt s).2

/-- Modelled from the spec: VelocityStep (body absent).  Adds the staged wind
sources and, when gravity is on, the buoyancy force to the previous velocity;
diffuses the previous velocity into the current buffer using the (possibly
adjusted) viscosity; projects; advects the projected velocity through itself
using the pre-advection velocity as the transport field; projects a second
time.  The result becomes the new current velocity and the previous velocity
for the next tick, and the consumed velocity source buffers are cleared. -/
def velocityStepS (dt : ℚ) (s : SimState) : SimState :=
  { s with fields :=
    { s.fields with
        xVel := (velProjected2 dt s).1, yVel := (velProjected2 dt s).2,
        xVel_prev := (velProjected2 dt s).1, yVel_prev := (velProjected2 dt s).2,
        xVel_source := zeroGrid, yVel_source := zeroGrid } }

/-- Modelled from the spec: DensityStep (body absent).  Adds the staged gas
sources to the previous density, diffuses with the (possibly adjusted) mass
diffusivity, advects with the freshly computed current velocity, and applies
exponential dissipation at densityDecayRate; the consumed density source
buffer is cleared and the previous buffer keeps the diffused intermediate. -/
def densityStepS (dt : ℚ) (s : SimState) : SimState :=
  let p := s.params
  let n := s.N
  let f := s.fields
  let d0 := addScaled f.dens f.dens_source dt
  let aD := diffCoef n p dt (fun k => AdjustedMassDiffusivity k p f)
  let d1 := diffuse n p.solverSteps 0 aD d0
  let d2 := advect n 0 d1 f.xVel f.yVel dt
  let d3 := dissipateArr d2 p.densDecay dt
  { s with fields := { f with dens := d3, dens_prev := d1, dens_source := zeroGrid } }

/-- Modelled from the spec: TemperatureStep (body absent).  Only when the
temperature feature is on: adds the staged heat/energy sources, diffuses with
the (possibly adjusted) thermal diffusivity, advects with the current
velocity, and dissipates at temperatureDecayRate. -/
def temperatureStepS (dt : ℚ) (s : SimState) : SimState :=
  if s.params.temperatureOn then
    let p := s.params
    let n := s.N
    let f := s.fields
    let t0 := addScaled f.temp f.temp_source dt
    let aT := diffCoef n p dt (fun k => AdjustedThermalDiffusivity k p f)
    let t1 := diffuse n p.solverSteps 0 aT t0
    let t2 := advect n 0 t1 f.xVel f.yVel dt
    let t3 := dissipateArr t2 p.tempDecay dt
    { s with fields := { f with temp := t3, temp_prev := t1, temp_source := zeroGrid } }
  else s

/-- Modelled from the spec: SimulationStep (body absent).  One discrete tick:
velocity update, then density update, then temperature update. -/
def simulationStep (dt : ℚ) (s : SimState) : SimState :=
  temperatureStepS dt (densityStepS dt (velocityStepS dt s))

/-- Modelled from the spec: SetSources (body absent).  Stages four full-grid
arrays into the corresponding source buffers as an additive write per
channel. -/
def setSources (f : SimFields) (density xVelocity yVelocity temperature : Grid) : SimFields :=
  { f with
    dens_source := fun k => f.dens_source k + density k,
    xVel_source := fun k => f.xVel_source k + xVelocity k,
    yVel_source := fun k => f.yVel_source k + yVelocity k,
    temp_source := fun k => f.temp_source k + temperature k }

/-- Sum of a buffer over all (N+2)^2 grid cells. -/
def totalGrid (N : Nat) (d : Grid) : ℚ := ((List.range ((N + 2) * (N + 2))).map d).sum

/-- Sum of a buffer over the interior cells. -/
def sumInterior (N : Nat) (d : Grid) : ℚ := ((interiorList N).map d).sum

/-- The Shape enumeration of the header. -/
inductive Shape where
  | square
  | circle
  | diamond
deriving DecidableEq

/-- The Type enumeration of the header (source kinds). -/
inductive SrcType where
  | gas
  | wind
  | heat
  | energy
deriving DecidableEq

/-- Physical coordinate of the center of a cell with index i along one axis:
cell size is lengthScale / N and the interior spans [0, lengthScale]. -/
def cellCenterCoord (N : Nat) (ls : ℚ) (i : Nat) : ℚ := ((i : ℚ) - 1 / 2) * (ls / (N : ℚ))

/-- Shape membership for offsets dx, dy from the source center in physical
units: square is max(|dx|,|dy|) ≤ radius, circle is dx^2+dy^2 ≤ radius^2,
diamond is |dx|+|dy| ≤ radius. -/
def shapeMem (sh : Shape) (dx dy r : ℚ) : Prop :=
  match sh with
  | Shape.square => max |dx| |dy| ≤ r
  | Shape.circle => dx ^ 2 + dy ^ 2 ≤ r ^ 2
  | Shape.diamond => |dx| + |dy| ≤ r

instance (sh : Shape) (dx dy r : ℚ) : Decidable (shapeMem sh dx dy r) :=
  match sh with
  | Shape.square => inferInstanceAs (Decidable (max |dx| |dy| ≤ r))
  | Shape.circle => inferInstanceAs (Decidable (dx ^ 2 + dy ^ 2 ≤ r ^ 2))
  | Shape.diamond => inferInstanceAs (Decidable (|dx| + |dy| ≤ r))

/-- Modelled from the spec: Source::SetIndices (body absent).  The index set
of all grid cells whose physical center lies within the shape; a non-positive
radius yields an empty index set.  The header passes lengthScale through the
kind-specific constructors, so it is an explicit argument here. -/
def setIndices (N : Nat) (ls : ℚ) (sh : Shape) (cx cy r : ℚ) : List Nat :=
  if r ≤ 0 then []
  else (List.range ((N + 2) * (N + 2))).filter (fun k =>
    decide (shapeMem sh (cellCenterCoord N ls (k % (N + 2)) - cx)
      (cellCenterCoord N ls (k / (N + 2)) - cy) r))

/-- The Source base record of the header: geometry, kind tag, active flag,
precomputed index set, and emission payload (the base-class emission fields
plus the energy-source payload). -/
structure Source where
  shape : Shape
  stype : SrcType
  radius : ℚ
  isActive : Bool
  indices : List Nat
  xVel : ℚ
  yVel : ℚ
  dens : ℚ
  temp : ℚ
  flux : ℚ
  refTemp : ℚ

/-- Source::SetActive: toggles the contribution flag without removal. -/
def setActive (s : Source) (b : Bool) : Source := { s with isActive := b }

/-- Modelled from the spec: CreateGasSource (body absent).  A gas source adds
density at flowRate and sets the local injected temperature. -/
def createGasSource (N : Nat) (ls : ℚ) (sh : Shape)
    (flowRate tempVal cx cy r : ℚ) : Source :=
  { shape := sh, stype := SrcType.gas, radius := r, isActive := true,
    indices := setIndices N ls sh cx cy r,
    xVel := 0, yVel := 0, dens := flowRate, temp := tempVal, flux := 0, refTemp := 0 }

/-- Modelled from the spec: CreateWindSource (body absent).  A wind source
adds a velocity vector of magnitude speed at the given angle; the direction
cosine and sine of the angle are taken as arguments dirX, dirY, since the
trigonometric conversion is not rational. -/
def createWindSource (N : Nat) (ls : ℚ) (sh : Shape)
    (dirX dirY speed cx cy r : ℚ) : Source :=
  { shape := sh, stype := SrcType.wind, radius := r, isActive := true,
    indices := setIndices N ls sh cx cy r,
    xVel := speed * dirX, yVel := speed * dirY, dens := 0, temp := 0, flux := 0, refTemp := 0 }

/-- Modelled from the spec: CreateHeatSource (body absent).  A heat source
contributes temperature equal to its temperature payload. -/
def createHeatSource (N : Nat) (ls : ℚ) (sh : Shape)
    (tempVal cx cy r : ℚ) : Source :=
  { shape := sh, stype := SrcType.heat, radius := r, isActive := true,
    indices := setIndices N ls sh cx cy r,
    xVel := 0, yVel := 0, dens := 0, temp := tempVal, flux := 0, refTemp := 0 }

/-- Modelled from the spec: CreateEnergySource (body absent).  An energy
source contributes temperature derived from flux relative to the reference
temperature. -/
def createEnergySource (N : Nat) (ls : ℚ) (sh : Shape)
    (fluxVal refTempVal cx cy r : ℚ) : Source :=
  { shape := sh, stype := SrcType.energy, radius := r, isActive := true,
    indices := setIndices N ls sh cx cy r,
    xVel := 0, yVel := 0, dens := 0, temp := 0, flux := fluxVal, refTemp := refTempVal }

/-- The four source buffers the Source Manager writes into. -/
structure SourceBufs where
  xVel : Grid
  yVel : Grid
  dens : Grid
  temp : Grid

/-- Modelled from the spec: the per-cell emission write of UpdateSources
(body absent).  Gas adds density at flowRate and sets the local injected
temperature; wind adds the velocity vector; heat adds its temperature;
energy adds a flux-driven contribution proportional to the gap between the
local and reference temperature (the linear form of the flux conversion,
documented as an assumption by the spec). -/
def applyAt (s : Source) (k : Nat) (b : SourceBufs) : SourceBufs :=
  match s.stype with
  | SrcType.gas =>
      { b with dens := Function.update b.dens k (b.dens k + s.dens),
               temp := Function.update b.temp k s.temp }
  | SrcType.wind =>
      { b with xVel := Function.update b.xVel k (b.xVel k + s.xVel),
               yVel := Function.update b.yVel k (b.yVel k + s.yVel) }
  | SrcType.heat =>
      { b with temp := Function.update b.temp k (b.temp k + s.temp) }
  | SrcType.energy =>
      { b with temp := Function.update b.temp k (b.temp k + s.flux * (s.refTemp - b.temp k)) }

/-- Modelled from the spec: the contribution of one source in UpdateSources.
An active source writes its emission at every index of its index set;
an inactive source writes nothing. -/
def applySource (s : Source) (b : SourceBufs) : SourceBufs :=
  if s.isActive then s.indices.foldl (fun acc k => applyAt s k acc) b else b

/-- Modelled from the spec: UpdateSources (body absent).  Every source of the
collection, in order, writes its emission into the source buffers. -/
def updateSources (sources : List Source) (b : SourceBufs) : SourceBufs :=
  sources.foldl (fun acc s => applySource s acc) b

/-- UpdateSources acting on the full field store: the Source Manager holds
references into the source buffers only, so only those four buffers are
mapped through the update. -/
def updateSourcesFields (sources : List Source) (f : SimFields) : SimFields :=
  let b := updateSources sources
    { xVel := f.xVel_source, yVel := f.yVel_source, dens := f.dens_source, temp := f.temp_source }
  { f with xVel_source := b.xVel, yVel_source := b.yVel,
           dens_source := b.dens, temp_source := b.temp }

/-- The identity-valued buffer, a sample grid for concrete instances. -/
def natGrid : Grid := fun k => (k : ℚ)

/-- A sample parameter set for concrete instances: plain coefficients,
gravity and temperature off, zero viscosity and diffusion, unit length scale,
one relaxation sweep, unit density decay rate. -/
def exampleParams : SimParams :=
  { advancedCoefficients := false, gravityOn := false, temperatureOn := false,
    solverSteps := 1, lengthScale := 1, visc := 0, diff := 0, grav := 0,
    airDens := 1, massFrac := 0, airTemp := 1, diffTemp := 0,
    densDecay := 1, tempDecay := 0 }

/-- A sample field store for concrete instances: every buffer zero. -/
def exampleFields : SimFields :=
  { xVel := zeroGrid, yVel := zeroGrid, dens := zeroGrid, temp := zeroGrid,
    xVel_prev := zeroGrid, yVel_prev := zeroGrid, dens_prev := zeroGrid,
    temp_prev := zeroGrid, xVel_source := zeroGrid, yVel_source := zeroGrid,
    dens_source := zeroGrid, temp_source := zeroGrid }

/-- A sample simulation state on the N = 1 grid with all-zero fields. -/
def exampleState : SimState := { N := 1, params := exampleParams, fields := exampleFields }

/-- A density buffer with a unit spike at the single interior cell of the
N = 1 grid (linear index 4). -/
def spikeGrid : Grid := fun k => if k = 4 then 1 else 0

/-- The sample state carrying the density spike. -/
def spikeState : SimState :=
  { N := 1, params := exampleParams, fields := { exampleFields with dens := spikeGrid } }

/-- A velocity buffer with a unit spike at interior cell (1,1) of the N = 2
grid (linear index 5). -/
def spikeU2 : Grid := fun k => if k = 5 then 1 else 0

/-- A density buffer with a unit spike at interior cell (1,1) of the N = 2
grid (linear index 5). -/
def spike5 : Grid := fun k => if k = 5 then 1 else 0

/-- Parameters for the nonzero-velocity growth instance: gravity off, zero
viscosity and diffusion, decay rate 1/100. -/
def velGrowParams : SimParams :=
  { advancedCoefficients := false, gravityOn := false, temperatureOn := false,
    solverSteps := 1, lengthScale := 1, visc := 0, diff := 0, grav := 0,
    airDens := 1, massFrac := 0, airTemp := 1, diffTemp := 0,
    densDecay := 1/100, tempDecay := 0 }

/-- A state with zero sources, positive decay, a density spike, and a uniform
rightward previous velocity of 3/5: advection pulls the boundary copies of
the spike into the interior, growing the interior density total. -/
def velGrowState : SimState :=
  { N := 2, params := velGrowParams,
    fields := { exampleFields with dens := spike5, xVel_prev := fun _ => 3 / 5 } }

/-- Parameters for the buoyancy growth instance: gravity on with gravity
constant 4, mass fraction 1/2, decay rate 1/100. -/
def gravGrowParams : SimParams :=
  { advancedCoefficients := false, gravityOn := true, temperatureOn := false,
    solverSteps := 1, lengthScale := 1, visc := 0, diff := 0, grav := 4,
    airDens := 1, massFrac := 1/2, airTemp := 1, diffTemp := 0,
    densDecay := 1/100, tempDecay := 0 }

/-- A state with zero sources, zero previous velocity and positive decay in
which the buoyancy force alone creates a flow that grows the interior
density total. -/
def gravGrowState : SimState :=
  { N := 2, params := gravGrowParams, fields := { exampleFields with dens := spike5 } }

/-- Parameters identical to the sample set except for a unit mass-diffusion
constant. -/
def diffGrowParams : SimParams :=
  { advancedCoefficients := false, gravityOn := false, temperatureOn := false,
    solverSteps := 1, lengthScale := 1, visc := 0, diff := 1, grav := 0,
    airDens := 1, massFrac := 0, airTemp := 1, diffTemp := 0,
    densDecay := 1, tempDecay := 0 }

/-- A state whose density sits on a boundary cell (index 3 of the N = 1
grid): one diffusion sweep pulls it into the interior, growing the interior
density total from zero. -/
def diffGrowState : SimState :=
  { N := 1, params := diffGrowParams,
    fields := { exampleFields with dens := fun k => if k = 3 then 1 else 0 } }

/-- A state with a negative density cell: dissipation divides by 1 + dt*rate
and so increases a negative total. -/
def negDensState : SimState :=
  { N := 1, params := exampleParams,
    fields := { exampleFields with dens := fun k => if k = 4 then -1 else 0 } }

attribute [local semireducible] Rat.add Rat.mul Rat.sub Rat.inv

theorem ix_mod (N i j : Nat) (h : i < N + 2) : ix N i j % (N + 2) = i := by
  unfold ix
  rw [Nat.add_mul_mod_self_left]
  exact Nat.mod_eq_of_lt h

theorem ix_div (N i j : Nat) (h : i < N + 2) : ix N i j / (N + 2) = j := by
  unfold ix
  rw [Nat.add_mul_div_left _ _ (by omega : 0 < N + 2), Nat.div_eq_of_lt h]
  omega

theorem ix_encode (N k : Nat) : ix N (k % (N + 2)) (k / (N + 2)) = k := by
  unfold ix
  exact Nat.mod_add_div k (N + 2)

theorem mem_interiorList (N k : Nat) (hk : k ∈ interiorList N) :
    1 ≤ k % (N + 2) ∧ k % (N + 2) ≤ N ∧ 1 ≤ k / (N + 2) ∧ k / (N + 2) ≤ N := by
  unfold interiorList at hk
  rw [List.mem_flatMap] at hk
  obtain ⟨jj, hjj, hk⟩ := hk
  rw [List.mem_range] at hjj
  rw [List.mem_map] at hk
  obtain ⟨ii, hii, hk⟩ := hk
  rw [List.mem_range] at hii
  subst hk
  rw [ix_mod N _ _ (by omega), ix_div N _ _ (by omega)]
  omega

theorem setBnd_not_corner (N b k : Nat) (x : Grid)
    (hedge : (1 ≤ k % (N + 2) ∧ k % (N + 2) ≤ N) ∨ (1 ≤ k / (N + 2) ∧ k / (N + 2) ≤ N)) :
    setBnd N b x k = edgeVal N b x (k % (N + 2)) (k / (N + 2)) := by
  have hc1 : ¬(k % (N + 2) = 0 ∧ k / (N + 2) = 0) := by omega
  have hc2 : ¬(k % (N + 2) = 0 ∧ k / (N + 2) = N + 1) := by omega
  have hc3 : ¬(k % (N + 2) = N + 1 ∧ k / (N + 2) = 0) := by omega
  have hc4 : ¬(k % (N + 2) = N + 1 ∧ k / (N + 2) = N + 1) := by omega
  unfold setBnd
  simp only
  rw [if_neg hc1, if_neg hc2, if_neg hc3, if_neg hc4]

theorem setBnd_interior (N b : Nat) (x : Grid) (k : Nat)
    (h1 : 1 ≤ k % (N + 2)) (h2 : k % (N + 2) ≤ N)
    (h3 : 1 ≤ k / (N + 2)) (h4 : k / (N + 2) ≤ N) :
    setBnd N b x k = x k := by
  rw [setBnd_not_corner N b k x (Or.inl ⟨h1, h2⟩)]
  have he1 : ¬(k % (N + 2) = 0) := by omega
  have he2 : ¬(k % (N + 2) = N + 1) := by omega
  have he3 : ¬(k / (N + 2) = 0) := by omega
  have he4 : ¬(k / (N + 2) = N + 1) := by omega
  unfold edgeVal
  rw [if_neg he1, if_neg he2, if_neg he3, if_neg he4, ix_encode]

theorem edgeVal_zero (N b : Nat) (x : Grid) (hx : ∀ m, x m = 0) (i j : Nat) :
    edgeVal N b x i j = 0 := by
  unfold edgeVal
  split_ifs <;> simp [hx]

theorem setBnd_zero (N b : Nat) (x : Grid) (hx : ∀ m, x m = 0) (k : Nat) :
    setBnd N b x k = 0 := by
  unfold setBnd
  simp only
  split_ifs <;> simp [edgeVal_zero N b x hx, hx]

theorem gsFold_not_mem (N : Nat) (x0 aOf cOf : Grid) (l : List Nat) (g : Grid)
    (k : Nat) (hk : k ∉ l) : gsFold N x0 aOf cOf l g k = g k := by
  induction l generalizing g with
  | nil => rfl
  | cons a l ih =>
      have hka : k ≠ a := by intro h; exact hk (h ▸ List.mem_cons_self a l)
      have hkl : k ∉ l := fun h => hk (List.mem_cons_of_mem a h)
      rw [gsFold, ih _ hkl, Function.update_noteq hka]

theorem gsFold_zero (N : Nat) (x0 aOf cOf : Grid) (l : List Nat) (g : Grid)
    (hx0 : ∀ m, x0 m = 0) (hg : ∀ m, g m = 0) (k : Nat) :
    gsFold N x0 aOf cOf l g k = 0 := by
  induction l generalizing g with
  | nil => exact hg k
  | cons a l ih =>
      rw [gsFold]
      refine ih _ (fun m => ?_) 
      rw [Function.update_apply]
      split_ifs with h
      · simp [hx0, hg]
      · exact hg m

theorem gsFold_mem_simple (N : Nat) (x0 aOf cOf : Grid) (l : List Nat) (g : Grid)
    (ha : ∀ m, aOf m = 0) (hc : ∀ m, cOf m = 1) (k : Nat) (hk : k ∈ l) :
    gsFold N x0 aOf cOf l g k = x0 k := by
  induction l generalizing g with
  | nil => cases hk
  | cons a l ih =>
      rw [gsFold]
      by_cases hkl : k ∈ l
      · exact ih _ hkl
      · have hka : k = a := by
          rcases List.mem_cons.mp hk with h | h
          · exact h
          · exact absurd h hkl
        subst hka
        rw [gsFold_not_mem _ _ _ _ _ _ _ hkl, Function.update_same, ha, hc]
        simp

theorem gsSolve_zero (N steps b : Nat) (x0 aOf cOf : Grid) (init : Grid)
    (hx0 : ∀ m, x0 m = 0) (hinit : ∀ m, init m = 0) (k : Nat) :
    gsSolve N steps b x0 aOf cOf init k = 0 := by
  induction steps generalizing k with
  | zero => exact hinit k
  | succ n ih =>
      unfold gsSolve
      rw [Function.iterate_succ_apply']
      exact setBnd_zero N b _ (fun m => gsFold_zero N x0 aOf cOf _ _ hx0 ih m) k

theorem gsSolve_interior_simple (N steps b : Nat) (x0 aOf cOf : Grid)
    (ha : ∀ m, aOf m = 0) (hc : ∀ m, cOf m = 1) (k : Nat) (hk : k ∈ interiorList N) :
    gsSolve N steps b x0 aOf cOf x0 k = x0 k := by
  obtain ⟨h1, h2, h3, h4⟩ := mem_interiorList N k hk
  induction steps with
  | zero => rfl
  | succ n ih =>
      unfold gsSolve
      rw [Function.iterate_succ_apply']
      rw [setBnd_interior N b _ k h1 h2 h3 h4]
      exact gsFold_mem_simple N x0 aOf cOf _ _ ha hc k hk

theorem diffuse_zero (N steps b : Nat) (aOf : Grid) (x0 : Grid)
    (hx0 : ∀ m, x0 m = 0) (k : Nat) : diffuse N steps b aOf x0 k = 0 :=
  gsSolve_zero N steps b x0 aOf _ x0 hx0 hx0 k

theorem diffuse_interior_simple (N steps b : Nat) (aOf : Grid) (x0 : Grid)
    (ha : ∀ m, aOf m = 0) (k : Nat) (hk : k ∈ interiorList N) :
    diffuse N steps b aOf x0 k = x0 k := by
  refine gsSolve_interior_simple N steps b x0 aOf _ ha (fun m => ?_) k hk
  rw [ha]
  norm_num

theorem advect_zero (N b : Nat) (d0 u v : Grid) (dt : ℚ)
    (hd0 : ∀ m, d0 m = 0) (k : Nat) : advect N b d0 u v dt k = 0 := by
  unfold advect
  refine setBnd_zero N b _ (fun m => ?_) k
  split_ifs
  · simp [hd0]
  · exact hd0 m

theorem interiorList_isInterior (N k : Nat) (hk : k ∈ interiorList N) : isInterior N k :=
  mem_interiorList N k hk

theorem advect_interior_zero_vel (N b : Nat) (d0 u v : Grid) (dt : ℚ)
    (hu : ∀ m, u m = 0) (hv : ∀ m, v m = 0) (k : Nat) (hk : k ∈ interiorList N) :
    advect N b d0 u v dt k = d0 k := by
  obtain ⟨h1, h2, h3, h4⟩ := mem_interiorList N k hk
  unfold advect
  rw [setBnd_interior N b _ k h1 h2 h3 h4]
  rw [if_pos (interiorList_isInterior N k hk)]
  dsimp only
  have hcast : ∀ m : Nat, 1 ≤ m → m ≤ N →
      clampQ ((m : ℚ) - dt * (N : ℚ) * 0) (1 / 2) ((N : ℚ) + 1 / 2) = (m : ℚ) := by
    intro m hm1 hm2
    have hm1q : (1 : ℚ) ≤ (m : ℚ) := by exact_mod_cast hm1
    have hm2q : (m : ℚ) ≤ (N : ℚ) := by exact_mod_cast hm2
    unfold clampQ
    rw [mul_zero, sub_zero, if_neg (by linarith), if_neg (by linarith)]
  rw [hu k, hv k, hcast _ h1 h2, hcast _ h3 h4]
  have hfl : ∀ m : Nat, ((⌊(m : ℚ)⌋).toNat : ℚ) = (m : ℚ) ∧ (⌊(m : ℚ)⌋).toNat = m := by
    intro m
    constructor
    · rw [Int.floor_natCast, Int.toNat_natCast]
    · rw [Int.floor_natCast, Int.toNat_natCast]
  rw [(hfl (k % (N + 2))).1, (hfl (k / (N + 2))).1, (hfl (k % (N + 2))).2,
    (hfl (k / (N + 2))).2, ix_encode]
  ring

theorem hodge_zero (N steps : Nat) (u v : Grid)
    (hu : ∀ m, u m = 0) (hv : ∀ m, v m = 0) :
    (∀ m, (hodgeProject N steps u v).1 m = 0) ∧ (∀ m, (hodgeProject N steps u v).2 m = 0) := by
  have hdv : ∀ m, divGrid N u v m = 0 := by
    intro m
    unfold divGrid
    refine setBnd_zero N 0 _ (fun m2 => ?_) m
    split_ifs
    · simp [hu, hv]
    · rfl
  have hp : ∀ m, gsSolve N steps 0 (divGrid N u v) (fun _ => 1) (fun _ => 4) zeroGrid m = 0 :=
    gsSolve_zero N steps 0 _ _ _ _ hdv (fun _ => rfl)
  constructor
  · intro m
    unfold hodgeProject
    refine setBnd_zero N 1 _ (fun m2 => ?_) m
    split_ifs <;> simp [hu, hp]
  · intro m
    unfold hodgeProject
    refine setBnd_zero N 2 _ (fun m2 => ?_) m
    split_ifs <;> simp [hv, hp]

theorem setBnd_left (N b j : Nat) (x : Grid) (hj1 : 1 ≤ j) (hjN : j ≤ N) :
    setBnd N b x (ix N 0 j) = edgeVal N b x 0 j := by
  have hm := ix_mod N 0 j (by omega)
  have hd := ix_div N 0 j (by omega)
  rw [setBnd_not_corner N b _ x (Or.inr (by rw [hd]; exact ⟨hj1, hjN⟩)), hm, hd]

theorem setBnd_right (N b j : Nat) (x : Grid) (hj1 : 1 ≤ j) (hjN : j ≤ N) :
    setBnd N b x (ix N (N + 1) j) = edgeVal N b x (N + 1) j := by
  have hm := ix_mod N (N + 1) j (by omega)
  have hd := ix_div N (N + 1) j (by omega)
  rw [setBnd_not_corner N b _ x (Or.inr (by rw [hd]; exact ⟨hj1, hjN⟩)), hm, hd]

theorem setBnd_bottom (N b i : Nat) (x : Grid) (hi1 : 1 ≤ i) (hiN : i ≤ N) :
    setBnd N b x (ix N i 0) = edgeVal N b x i 0 := by
  have hm := ix_mod N i 0 (by omega)
  have hd := ix_div N i 0 (by omega)
  rw [setBnd_not_corner N b _ x (Or.inl (by rw [hm]; exact ⟨hi1, hiN⟩)), hm, hd]

theorem setBnd_top (N b i : Nat) (x : Grid) (hi1 : 1 ≤ i) (hiN : i ≤ N) :
    setBnd N b x (ix N i (N + 1)) = edgeVal N b x i (N + 1) := by
  have hm := ix_mod N i (N + 1) (by omega)
  have hd := ix_div N i (N + 1) (by omega)
  rw [setBnd_not_corner N b _ x (Or.inl (by rw [hm]; exact ⟨hi1, hiN⟩)), hm, hd]

theorem setBnd_corner00 (N b : Nat) (x : Grid) :
    setBnd N b x (ix N 0 0) = (edgeVal N b x 1 0 + edgeVal N b x 0 1) / 2 := by
  unfold setBnd
  simp only
  rw [ix_mod N 0 0 (by omega), ix_div N 0 0 (by omega)]
  rw [if_pos (by omega : (0 : Nat) = 0 ∧ (0 : Nat) = 0)]

theorem setBnd_corner0T (N b : Nat) (x : Grid) :
    setBnd N b x (ix N 0 (N + 1)) = (edgeVal N b x 1 (N + 1) + edgeVal N b x 0 N) / 2 := by
  have hk1 : ¬((0 : Nat) = 0 ∧ N + 1 = 0) := by omega
  unfold setBnd
  simp only
  rw [ix_mod N 0 (N + 1) (by omega), ix_div N 0 (N + 1) (by omega)]
  rw [if_neg hk1, if_pos (by omega : (0 : Nat) = 0 ∧ N + 1 = N + 1)]

theorem setBnd_cornerR0 (N b : Nat) (x : Grid) :
    setBnd N b x (ix N (N + 1) 0) = (edgeVal N b x N 0 + edgeVal N b x (N + 1) 1) / 2 := by
  have hk1 : ¬(N + 1 = 0 ∧ (0 : Nat) = 0) := by omega
  have hk2 : ¬(N + 1 = 0 ∧ (0 : Nat) = N + 1) := by omega
  unfold setBnd
  simp only
  rw [ix_mod N (N + 1) 0 (by omega), ix_div N (N + 1) 0 (by omega)]
  rw [if_neg hk1, if_neg hk2, if_pos (by omega : N + 1 = N + 1 ∧ (0 : Nat) = 0)]

theorem setBnd_cornerRT (N b : Nat) (x : Grid) :
    setBnd N b x (ix N (N + 1) (N + 1))
      = (edgeVal N b x N (N + 1) + edgeVal N b x (N + 1) N) / 2 := by
  have hk1 : ¬(N + 1 = 0 ∧ N + 1 = 0) := by omega
  have hk2 : ¬(N + 1 = 0 ∧ N + 1 = N + 1) := by omega
  have hk3 : ¬(N + 1 = N + 1 ∧ N + 1 = 0) := by omega
  unfold setBnd
  simp only
  rw [ix_mod N (N + 1) (N + 1) (by omega), ix_div N (N + 1) (N + 1) (by omega)]
  rw [if_neg hk1, if_neg hk2, if_neg hk3,
    if_pos (by omega : N + 1 = N + 1 ∧ N + 1 = N + 1)]

theorem edgeVal_left (N b j : Nat) (x : Grid) :
    edgeVal N b x 0 j = if b = 1 then -(x (ix N 1 j)) else x (ix N 1 j) := by
  unfold edgeVal
  rw [if_pos rfl]

theorem edgeVal_right (N b j : Nat) (x : Grid) :
    edgeVal N b x (N + 1) j = if b = 1 then -(x (ix N N j)) else x (ix N N j) := by
  unfold edgeVal
  rw [if_neg (by omega), if_pos rfl]

theorem edgeVal_bottom (N b i : Nat) (x : Grid) (hi1 : 1 ≤ i) (hiN : i ≤ N) :
    edgeVal N b x i 0 = if b = 2 then -(x (ix N i 1)) else x (ix N i 1) := by
  have hz1 : ¬(i = 0) := by omega
  have hz2 : ¬(i = N + 1) := by omega
  unfold edgeVal
  rw [if_neg hz1, if_neg hz2, if_pos rfl]

theorem edgeVal_top (N b i : Nat) (x : Grid) (hi1 : 1 ≤ i) (hiN : i ≤ N) :
    edgeVal N b x i (N + 1) = if b = 2 then -(x (ix N i N)) else x (ix N i N) := by
  have hz1 : ¬(i = 0) := by omega
  have hz2 : ¬(i = N + 1) := by omega
  have hz3 : ¬(N + 1 = 0) := by omega
  unfold edgeVal
  rw [if_neg hz1, if_neg hz2, if_neg hz3, if_pos rfl]

theorem applySource_inactive (s : Source) (h : s.isActive = false) (b : SourceBufs) :
    applySource s b = b := by
  unfold applySource
  rw [h]
  rfl

theorem applySource_empty (s : Source) (h : s.indices = []) (b : SourceBufs) :
    applySource s b = b := by
  unfold applySource
  rw [h]
  split_ifs <;> rfl

theorem updateSources_middle_vanish (s : Source) (l1 l2 : List Source) (b : SourceBufs)
    (h : ∀ b2 : SourceBufs, applySource s b2 = b2) :
    updateSources (l1 ++ s :: l2) b = updateSources (l1 ++ l2) b := by
  unfold updateSources
  rw [List.foldl_append, List.foldl_append, List.foldl_cons, h]

theorem setIndices_nonpos (N : Nat) (ls : ℚ) (sh : Shape) (cx cy r : ℚ) (hr : r ≤ 0) :
    setIndices N ls sh cx cy r = [] := by
  unfold setIndices
  rw [if_pos hr]

/-- C3: after SetBoundary, a wall-normal velocity boundary cell is the
negation of the adjacent interior cell (b = 1 on the left/right walls, b = 2
on the bottom/top walls), a scalar (density/temperature, b = 0) boundary cell
copies the adjacent interior cell, and each of the four corner cells is the
average of its two adjacent edge cells. -/
theorem c3_setBoundary_walls (N b j : Nat) (x : Grid)
    (hN : 1 ≤ N) (hj1 : 1 ≤ j) (hjN : j ≤ N) :
    (setBnd N 1 x (ix N 0 j) = -(x (ix N 1 j)) ∧
     setBnd N 1 x (ix N (N + 1) j) = -(x (ix N N j)) ∧
     setBnd N 2 x (ix N j 0) = -(x (ix N j 1)) ∧
     setBnd N 2 x (ix N j (N + 1)) = -(x (ix N j N))) ∧
    (setBnd N 0 x (ix N 0 j) = x (ix N 1 j) ∧
     setBnd N 0 x (ix N (N + 1) j) = x (ix N N j) ∧
     setBnd N 0 x (ix N j 0) = x (ix N j 1) ∧
     setBnd N 0 x (ix N j (N + 1)) = x (ix N j N)) ∧
    (setBnd N b x (ix N 0 0)
        = (setBnd N b x (ix N 1 0) + setBnd N b x (ix N 0 1)) / 2 ∧
     setBnd N b x (ix N 0 (N + 1))
        = (setBnd N b x (ix N 1 (N + 1)) + setBnd N b x (ix N 0 N)) / 2 ∧
     setBnd N b x (ix N (N + 1) 0)
        = (setBnd N b x (ix N N 0) + setBnd N b x (ix N (N + 1) 1)) / 2 ∧
     setBnd N b x (ix N (N + 1) (N + 1))
        = (setBnd N b x (ix N N (N + 1)) + setBnd N b x (ix N (N + 1) N)) / 2) := by
  have hvL : setBnd N 1 x (ix N 0 j) = -(x (ix N 1 j)) := by
    rw [setBnd_left N 1 j x hj1 hjN, edgeVal_left, if_pos rfl]
  have hvR : setBnd N 1 x (ix N (N + 1) j) = -(x (ix N N j)) := by
    rw [setBnd_right N 1 j x hj1 hjN, edgeVal_right, if_pos rfl]
  have hvB : setBnd N 2 x (ix N j 0) = -(x (ix N j 1)) := by
    rw [setBnd_bottom N 2 j x hj1 hjN, edgeVal_bottom N 2 j x hj1 hjN, if_pos rfl]
  have hvT : setBnd N 2 x (ix N j (N + 1)) = -(x (ix N j N)) := by
    rw [setBnd_top N 2 j x hj1 hjN, edgeVal_top N 2 j x hj1 hjN, if_pos rfl]
  have hsL : setBnd N 0 x (ix N 0 j) = x (ix N 1 j) := by
    rw [setBnd_left N 0 j x hj1 hjN, edgeVal_left, if_neg (by omega)]
  have hsR : setBnd N 0 x (ix N (N + 1) j) = x (ix N N j) := by
    rw [setBnd_right N 0 j x hj1 hjN, edgeVal_right, if_neg (by omega)]
  have hsB : setBnd N 0 x (ix N j 0) = x (ix N j 1) := by
    rw [setBnd_bottom N 0 j x hj1 hjN, edgeVal_bottom N 0 j x hj1 hjN, if_neg (by omega)]
  have hsT : setBnd N 0 x (ix N j (N + 1)) = x (ix N j N) := by
    rw [setBnd_top N 0 j x hj1 hjN, edgeVal_top N 0 j x hj1 hjN, if_neg (by omega)]
  have hq1 : setBnd N b x (ix N 0 0)
      = (setBnd N b x (ix N 1 0) + setBnd N b x (ix N 0 1)) / 2 := by
    rw [setBnd_corner00, setBnd_bottom N b 1 x (by omega) hN, setBnd_left N b 1 x (by omega) hN]
  have hq2 : setBnd N b x (ix N 0 (N + 1))
      = (setBnd N b x (ix N 1 (N + 1)) + setBnd N b x (ix N 0 N)) / 2 := by
    rw [setBnd_corner0T, setBnd_top N b 1 x (by omega) hN, setBnd_left N b N x hN (by omega)]
  have hq3 : setBnd N b x (ix N (N + 1) 0)
      = (setBnd N b x (ix N N 0) + setBnd N b x (ix N (N + 1) 1)) / 2 := by
    rw [setBnd_cornerR0, setBnd_bottom N b N x hN (by omega), setBnd_right N b 1 x (by omega) hN]
  have hq4 : setBnd N b x (ix N (N + 1) (N + 1))
      = (setBnd N b x (ix N N (N + 1)) + setBnd N b x (ix N (N + 1) N)) / 2 := by
    rw [setBnd_cornerRT, setBnd_top N b N x hN (by omega), setBnd_right N b N x hN (by omega)]
  exact ⟨⟨hvL, hvR, hvB, hvT⟩, ⟨hsL, hsR, hsB, hsT⟩, hq1, hq2, hq3, hq4⟩

/-- C3 witness: the boundary characterization instantiated on the N = 1 grid
with the identity-valued buffer. -/
theorem c3_setBoundary_walls_witness :
    ((1 : Nat) ≤ 1 ∧ (1 : Nat) ≤ 1 ∧ (1 : Nat) ≤ 1) ∧
    ((setBnd 1 1 natGrid (ix 1 0 1) = -(natGrid (ix 1 1 1)) ∧
      setBnd 1 1 natGrid (ix 1 2 1) = -(natGrid (ix 1 1 1)) ∧
      setBnd 1 2 natGrid (ix 1 1 0) = -(natGrid (ix 1 1 1)) ∧
      setBnd 1 2 natGrid (ix 1 1 2) = -(natGrid (ix 1 1 1))) ∧
     (setBnd 1 0 natGrid (ix 1 0 1) = natGrid (ix 1 1 1) ∧
      setBnd 1 0 natGrid (ix 1 2 1) = natGrid (ix 1 1 1) ∧
      setBnd 1 0 natGrid (ix 1 1 0) = natGrid (ix 1 1 1) ∧
      setBnd 1 0 natGrid (ix 1 1 2) = natGrid (ix 1 1 1)) ∧
     (setBnd 1 0 natGrid (ix 1 0 0)
        = (setBnd 1 0 natGrid (ix 1 1 0) + setBnd 1 0 natGrid (ix 1 0 1)) / 2 ∧
      setBnd 1 0 natGrid (ix 1 0 2)
        = (setBnd 1 0 natGrid (ix 1 1 2) + setBnd 1 0 natGrid (ix 1 0 1)) / 2 ∧
      setBnd 1 0 natGrid (ix 1 2 0)
        = (setBnd 1 0 natGrid (ix 1 1 0) + setBnd 1 0 natGrid (ix 1 2 1)) / 2 ∧
      setBnd 1 0 natGrid (ix 1 2 2)
        = (setBnd 1 0 natGrid (ix 1 1 2) + setBnd 1 0 natGrid (ix 1 2 1)) / 2)) :=
  ⟨⟨le_refl 1, le_refl 1, le_refl 1⟩,
   c3_setBoundary_walls 1 0 1 natGrid (le_refl 1) (le_refl 1) (le_refl 1)⟩

/-- C6: when advancedCoefficients is false, AdjustedViscosity,
AdjustedMassDiffusivity and AdjustedThermalDiffusivity return exactly the
viscosity, diffusion and thermal-diffusivity constants of the parameter set,
independent of the grid field values. -/
theorem c6_plain_coefficients (k : Nat) (p : SimParams) (f : SimFields)
    (h : p.advancedCoefficients = false) :
    AdjustedViscosity k p f = p.visc ∧
    AdjustedMassDiffusivity k p f = p.diff ∧
    AdjustedThermalDiffusivity k p f = p.diffTemp := by
  unfold AdjustedViscosity AdjustedMassDiffusivity AdjustedThermalDiffusivity
  rw [h]
  exact ⟨rfl, rfl, rfl⟩

/-- C6 witness: the plain-coefficient equalities at the sample parameter set
and field store. -/
theorem c6_plain_coefficients_witness :
    exampleParams.advancedCoefficients = false ∧
    (AdjustedViscosity 0 exampleParams exampleFields = exampleParams.visc ∧
     AdjustedMassDiffusivity 0 exampleParams exampleFields = exampleParams.diff ∧
     AdjustedThermalDiffusivity 0 exampleParams exampleFields = exampleParams.diffTemp) :=
  ⟨rfl, c6_plain_coefficients 0 exampleParams exampleFields rfl⟩

/-- C9: SetSources stages the four input arrays into the corresponding
source buffers as an additive write per channel. -/
theorem c9_setSources_additive (f : SimFields) (density xVelocity yVelocity temperature : Grid)
    (k : Nat) :
    (setSources f density xVelocity yVelocity temperature).dens_source k
        = f.dens_source k + density k ∧
    (setSources f density xVelocity yVelocity temperature).xVel_source k
        = f.xVel_source k + xVelocity k ∧
    (setSources f density xVelocity yVelocity temperature).yVel_source k
        = f.yVel_source k + yVelocity k ∧
    (setSources f density xVelocity yVelocity temperature).temp_source k
        = f.temp_source k + temperature k :=
  ⟨rfl, rfl, rfl, rfl⟩

/-- C10: UpdateSources writes only to the source-generation buffers; the
current and previous buffers of all four channels are unchanged. -/
theorem c10_updateSources_frame (sources : List Source) (f : SimFields) :
    (updateSourcesFields sources f).xVel = f.xVel ∧
    (updateSourcesFields sources f).yVel = f.yVel ∧
    (updateSourcesFields sources f).dens = f.dens ∧
    (updateSourcesFields sources f).temp = f.temp ∧
    (updateSourcesFields sources f).xVel_prev = f.xVel_prev ∧
    (updateSourcesFields sources f).yVel_prev = f.yVel_prev ∧
    (updateSourcesFields sources f).dens_prev = f.dens_prev ∧
    (updateSourcesFields sources f).temp_prev = f.temp_prev := by
  repeat refine And.intro rfl ?_
  rfl

/-- C8: after SetActive(false) on a source, UpdateSources writes nothing on
behalf of that source: the update of any collection containing the
deactivated source equals the update of the collection without it, so any
change at its covered cells comes only from the other sources. -/
theorem c8_inactive_writes_nothing (s : Source) (l1 l2 : List Source) (b : SourceBufs) :
    updateSources (l1 ++ setActive s false :: l2) b = updateSources (l1 ++ l2) b :=
  updateSources_middle_vanish (setActive s false) l1 l2 b
    (fun b2 => applySource_inactive (setActive s false) rfl b2)

/-- C7: a source-creation call with non-positive radius succeeds with an
empty index set, and UpdateSources lets such a source contribute nothing to
any source buffer: updating a collection containing it equals updating the
collection without it. -/
theorem c7_nonpositive_radius (ls fr tv dx dy sp fx rt cx cy r : ℚ)
    (sh : Shape) (nn : Nat) (hr : r ≤ 0) :
    ((createGasSource nn ls sh fr tv cx cy r).indices = [] ∧
     (createWindSource nn ls sh dx dy sp cx cy r).indices = [] ∧
     (createHeatSource nn ls sh tv cx cy r).indices = [] ∧
     (createEnergySource nn ls sh fx rt cx cy r).indices = []) ∧
    (∀ l1 l2 : List Source, ∀ b : SourceBufs,
      updateSources (l1 ++ createGasSource nn ls sh fr tv cx cy r :: l2) b
        = updateSources (l1 ++ l2) b ∧
      updateSources (l1 ++ createWindSource nn ls sh dx dy sp cx cy r :: l2) b
        = updateSources (l1 ++ l2) b ∧
      updateSources (l1 ++ createHeatSource nn ls sh tv cx cy r :: l2) b
        = updateSources (l1 ++ l2) b ∧
      updateSources (l1 ++ createEnergySource nn ls sh fx rt cx cy r :: l2) b
        = updateSources (l1 ++ l2) b) := by
  have he := setIndices_nonpos nn ls sh cx cy r hr
  have hvan : ∀ (s2 : Source), s2.indices = [] → ∀ (l1 l2 : List Source) (b : SourceBufs),
      updateSources (l1 ++ s2 :: l2) b = updateSources (l1 ++ l2) b :=
    fun s2 h2 l1 l2 b =>
      updateSources_middle_vanish s2 l1 l2 b (fun b2 => applySource_empty s2 h2 b2)
  exact ⟨⟨he, he, he, he⟩,
    fun l1 l2 b => ⟨hvan _ he l1 l2 b, hvan _ he l1 l2 b, hvan _ he l1 l2 b, hvan _ he l1 l2 b⟩⟩

/-- C7 witness: a circle gas source of radius 0 on the N = 1 grid covers no
cell and vanishes from UpdateSources. -/
theorem c7_nonpositive_radius_witness :
    (0 : ℚ) ≤ 0 ∧
    (((createGasSource 1 1 Shape.circle 1 300 (1/2) (1/2) 0).indices = [] ∧
      (createWindSource 1 1 Shape.circle 1 0 1 (1/2) (1/2) 0).indices = [] ∧
      (createHeatSource 1 1 Shape.circle 300 (1/2) (1/2) 0).indices = [] ∧
      (createEnergySource 1 1 Shape.circle 1 300 (1/2) (1/2) 0).indices = []) ∧
     (∀ l1 l2 : List Source, ∀ b : SourceBufs,
       updateSources (l1 ++ createGasSource 1 1 Shape.circle 1 300 (1/2) (1/2) 0 :: l2) b
         = updateSources (l1 ++ l2) b ∧
       updateSources (l1 ++ createWindSource 1 1 Shape.circle 1 0 1 (1/2) (1/2) 0 :: l2) b
         = updateSources (l1 ++ l2) b ∧
       updateSources (l1 ++ createHeatSource 1 1 Shape.circle 300 (1/2) (1/2) 0 :: l2) b
         = updateSources (l1 ++ l2) b ∧
       updateSources (l1 ++ createEnergySource 1 1 Shape.circle 1 300 (1/2) (1/2) 0 :: l2) b
         = updateSources (l1 ++ l2) b)) :=
  ⟨le_refl 0,
   c7_nonpositive_radius 1 1 300 1 0 1 1 300 (1/2) (1/2) 0 Shape.circle 1 (le_refl 0)⟩

/-- C4, amended to positive radius: for every creation call with a positive
radius, the index set is exactly the set of grid cells whose physical center
(cell size lengthScale / N) lies within the shape, with square membership
max(|dx|,|dy|) ≤ radius, circle membership dx^2+dy^2 ≤ radius^2, and diamond
membership |dx|+|dy| ≤ radius. -/
theorem c4_setIndices_exact (N : Nat) (ls fr tv dx dy sp fx rt cx cy r : ℚ)
    (sh : Shape) (hr : 0 < r) :
    ((createGasSource N ls sh fr tv cx cy r).indices = setIndices N ls sh cx cy r ∧
     (createWindSource N ls sh dx dy sp cx cy r).indices = setIndices N ls sh cx cy r ∧
     (createHeatSource N ls sh tv cx cy r).indices = setIndices N ls sh cx cy r ∧
     (createEnergySource N ls sh fx rt cx cy r).indices = setIndices N ls sh cx cy r) ∧
    (∀ k : Nat, k ∈ setIndices N ls sh cx cy r ↔
      k < (N + 2) * (N + 2) ∧
        shapeMem sh (cellCenterCoord N ls (k % (N + 2)) - cx)
          (cellCenterCoord N ls (k / (N + 2)) - cy) r) := by
  refine ⟨⟨rfl, rfl, rfl, rfl⟩, fun k => ?_⟩
  unfold setIndices
  rw [if_neg (not_le.mpr hr)]
  simp [List.mem_filter, List.mem_range]

/-- C4 witness: the exact-coverage characterization instantiated for a unit
circle source centered at the origin of the N = 1 grid. -/
theorem c4_setIndices_exact_witness :
    (0 : ℚ) < 1 ∧
    (((createGasSource 1 1 Shape.circle 0 0 0 0 1).indices
          = setIndices 1 1 Shape.circle 0 0 1 ∧
      (createWindSource 1 1 Shape.circle 0 0 0 0 0 1).indices
          = setIndices 1 1 Shape.circle 0 0 1 ∧
      (createHeatSource 1 1 Shape.circle 0 0 0 1).indices
          = setIndices 1 1 Shape.circle 0 0 1 ∧
      (createEnergySource 1 1 Shape.circle 0 0 0 0 1).indices
          = setIndices 1 1 Shape.circle 0 0 1) ∧
     (∀ k : Nat, k ∈ setIndices 1 1 Shape.circle 0 0 1 ↔
       k < (1 + 2) * (1 + 2) ∧
         shapeMem Shape.circle (cellCenterCoord 1 1 (k % (1 + 2)) - 0)
           (cellCenterCoord 1 1 (k / (1 + 2)) - 0) 1)) :=
  ⟨by norm_num,
   c4_setIndices_exact 1 1 0 0 0 0 0 0 0 0 0 1 Shape.circle (by norm_num)⟩

/-- C4 counterexample: with radius -1 the claimed exact-coverage property
fails: grid cell 4 of the N = 1 grid has its physical center within the
circle shape in the sense of the claimed membership test (distance zero from
the source center, and 0 ≤ (-1)^2), yet the created index set is empty
because a non-positive radius yields an empty index set. -/
theorem c4_membership_counterexample :
    4 < (1 + 2) * (1 + 2) ∧
    shapeMem Shape.circle (cellCenterCoord 1 1 (4 % (1 + 2)) - 1 / 2)
      (cellCenterCoord 1 1 (4 / (1 + 2)) - 1 / 2) (-1) ∧
    4 ∉ (createGasSource 1 1 Shape.circle 0 300 (1 / 2) (1 / 2) (-1)).indices := by
  refine ⟨by norm_num, ?_, ?_⟩
  · show (cellCenterCoord 1 1 (4 % (1 + 2)) - 1 / 2) ^ 2
        + (cellCenterCoord 1 1 (4 / (1 + 2)) - 1 / 2) ^ 2 ≤ (-1 : ℚ) ^ 2
    unfold cellCenterCoord
    norm_num
  · decide

/-- C1: SimulationStep performs the velocity update of a tick in the exact
order: diffusion of the (source-forced) previous velocity into the current
buffer, a first divergence-removing projection, self-advection of the
projected velocity by backward tracing with the pre-advection velocity as the
transport field, and a second projection; the result becomes both the new
current velocity and the previous velocity for the next tick. -/
theorem c1_velocity_pipeline (dt : ℚ) (s : SimState) :
    velDiffused dt s
        = (diffuse s.N s.params.solverSteps 1 (velViscCoef dt s) (velForceX dt s),
           diffuse s.N s.params.solverSteps 2 (velViscCoef dt s) (velForceY dt s)) ∧
    velProjected1 dt s
        = hodgeProject s.N s.params.solverSteps (velDiffused dt s).1 (velDiffused dt s).2 ∧
    velAdvected dt s
        = (advect s.N 1 (velProjected1 dt s).1
             (velProjected1 dt s).1 (velProjected1 dt s).2 dt,
           advect s.N 2 (velProjected1 dt s).2
             (velProjected1 dt s).1 (velProjected1 dt s).2 dt) ∧
    velProjected2 dt s
        = hodgeProject s.N s.params.solverSteps (velAdvected dt s).1 (velAdvected dt s).2 ∧
    (simulationStep dt s).fields.xVel = (velProjected2 dt s).1 ∧
    (simulationStep dt s).fields.yVel = (velProjected2 dt s).2 ∧
    (simulationStep dt s).fields.xVel_prev = (velProjected2 dt s).1 ∧
    (simulationStep dt s).fields.yVel_prev = (velProjected2 dt s).2 := by
  have hstep : (simulationStep dt s).fields.xVel = (velProjected2 dt s).1 ∧
      (simulationStep dt s).fields.yVel = (velProjected2 dt s).2 ∧
      (simulationStep dt s).fields.xVel_prev = (velProjected2 dt s).1 ∧
      (simulationStep dt s).fields.yVel_prev = (velProjected2 dt s).2 := by
    unfold simulationStep temperatureStepS
    split_ifs <;> exact ⟨rfl, rfl, rfl, rfl⟩
  exact ⟨rfl, rfl, rfl, rfl, hstep.1, hstep.2.1, hstep.2.2.1, hstep.2.2.2⟩

/-- C2, amended: on the smallest grid (N = 1) the discrete divergence of the
velocity field after HodgeProjection is exactly zero at the interior cell,
for every velocity field and every relaxation iteration count, so there the
divergence error is identically zero; on larger grids the post-projection
divergence error need not decrease monotonically in the iteration count. -/
theorem c2_projection_divergence_smallest (steps : Nat) (u v : Grid) :
    discreteDiv 1 (hodgeProject 1 steps u v).1 (hodgeProject 1 steps u v).2 (ix 1 1 1) = 0 := by
  have e5 : ∀ x : Grid, setBnd 1 1 x 5 = -(x 4) := by
    intro x
    unfold setBnd edgeVal
    norm_num [ix]
  have e3 : ∀ x : Grid, setBnd 1 1 x 3 = -(x 4) := by
    intro x
    unfold setBnd edgeVal
    norm_num [ix]
  have e7 : ∀ x : Grid, setBnd 1 2 x 7 = -(x 4) := by
    intro x
    unfold setBnd edgeVal
    norm_num [ix]
  have e1 : ∀ x : Grid, setBnd 1 2 x 1 = -(x 4) := by
    intro x
    unfold setBnd edgeVal
    norm_num [ix]
  unfold discreteDiv hodgeProject
  dsimp only
  norm_num [ix]
  rw [e5, e3, e7, e1]
  ring

set_option maxRecDepth 100000 in
/-- C2 counterexample: on the N = 2 grid with the unit-spike velocity field,
the absolute post-projection divergence at interior cell 9 is strictly larger
after two relaxation iterations than after one, so the divergence error does
not decrease monotonically in the iteration count. -/
theorem c2_divergence_not_monotone :
    |discreteDiv 2 (hodgeProject 2 1 spikeU2 zeroGrid).1
        (hodgeProject 2 1 spikeU2 zeroGrid).2 9|
      < |discreteDiv 2 (hodgeProject 2 2 spikeU2 zeroGrid).1
          (hodgeProject 2 2 spikeU2 zeroGrid).2 9| := by
  decide

theorem massDiffCoef_zero (n : Nat) (p : SimParams) (f : SimFields) (dt2 : ℚ)
    (h2 : p.diff = 0) (m : Nat) :
    diffCoef n p dt2 (fun k => AdjustedMassDiffusivity k p f) m = 0 := by
  unfold diffCoef AdjustedMassDiffusivity
  rw [h2]
  split_ifs <;> simp

/-- C5, amended: with all source buffers zero, zero previous velocity,
gravity off, zero mass-diffusion constant, a nonnegative time step, a
positive density decay rate, and nonnegative density, the sum of the density
field over the interior cells after one SimulationStep is at most the sum
before it (each interior cell is divided by 1 + dt * densityDecayRate).
Each hypothesis beyond the original claim is forced by a conjunct of the
counterexample: over all grid cells, or with nonzero previous velocity, or
with a nonzero diffusion constant, or with gravity on, or with a negative
density cell, or with a negative time step, the total strictly grows. -/
theorem c5_decay_monotone (dt : ℚ) (s : SimState)
    (hdt : 0 ≤ dt)
    (hxs : ∀ m, s.fields.xVel_source m = 0)
    (hys : ∀ m, s.fields.yVel_source m = 0)
    (hds : ∀ m, s.fields.dens_source m = 0)
    (hxp : ∀ m, s.fields.xVel_prev m = 0)
    (hyp2 : ∀ m, s.fields.yVel_prev m = 0)
    (hgrav : s.params.gravityOn = false)
    (hdiff : s.params.diff = 0)
    (hdec : 0 < s.params.densDecay)
    (hpos : ∀ m, 0 ≤ s.fields.dens m) :
    sumInterior s.N ((simulationStep dt s).fields.dens) ≤ sumInterior s.N s.fields.dens := by
  have htempd : ∀ st : SimState, (temperatureStepS dt st).fields.dens = st.fields.dens := by
    intro st
    unfold temperatureStepS
    split_ifs <;> rfl
  have hforceX : ∀ m, velForceX dt s m = 0 := by
    intro m
    unfold velForceX addScaled
    rw [hxp, hxs]
    ring
  have hforceY : ∀ m, velForceY dt s m = 0 := by
    intro m
    unfold velForceY
    rw [hgrav]
    simp only [Bool.false_eq_true, if_false]
    unfold addScaled
    rw [hyp2, hys]
    ring
  have hdiffU : ∀ m, (velDiffused dt s).1 m = 0 :=
    fun m => diffuse_zero _ _ _ _ _ hforceX m
  have hdiffV : ∀ m, (velDiffused dt s).2 m = 0 :=
    fun m => diffuse_zero _ _ _ _ _ hforceY m
  have hpr1 := hodge_zero s.N s.params.solverSteps _ _ hdiffU hdiffV
  have hadvU : ∀ m, (velAdvected dt s).1 m = 0 :=
    fun m => advect_zero _ _ _ _ _ _ hpr1.1 m
  have hadvV : ∀ m, (velAdvected dt s).2 m = 0 :=
    fun m => advect_zero _ _ _ _ _ _ hpr1.2 m
  have hpr2 := hodge_zero s.N s.params.solverSteps _ _ hadvU hadvV
  have hU : ∀ m, (velProjected2 dt s).1 m = 0 := hpr2.1
  have hV : ∀ m, (velProjected2 dt s).2 m = 0 := hpr2.2
  have hcell : ∀ k ∈ interiorList s.N,
      (densityStepS dt (velocityStepS dt s)).fields.dens k
        = s.fields.dens k / (1 + dt * s.params.densDecay) := by
    intro k hk
    unfold densityStepS
    dsimp only [velocityStepS]
    unfold dissipateArr
    rw [advect_interior_zero_vel _ _ _ _ _ _ hU hV k hk]
    rw [diffuse_interior_simple _ _ _ _ _
      (massDiffCoef_zero s.N s.params _ dt hdiff) k hk]
    unfold addScaled
    rw [hds]
    ring
  unfold simulationStep
  rw [htempd]
  unfold sumInterior
  refine List.sum_le_sum (fun k hk => ?_)
  rw [hcell k hk]
  refine div_le_self (hpos k) ?_
  nlinarith [mul_nonneg hdt (le_of_lt hdec)]

theorem zeroGrid_zero : ∀ m, zeroGrid m = 0 := fun _ => rfl

/-- C5 witness: the interior-decay bound instantiated at the all-zero sample
state with dt = 1. -/
theorem c5_decay_monotone_witness :
    (0 : ℚ) ≤ 1 ∧
    sumInterior 1 ((simulationStep 1 exampleState).fields.dens)
      ≤ sumInterior 1 exampleState.fields.dens :=
  ⟨by norm_num,
   c5_decay_monotone 1 exampleState (by norm_num)
     zeroGrid_zero zeroGrid_zero zeroGrid_zero zeroGrid_zero zeroGrid_zero
     rfl rfl (by norm_num : (0 : ℚ) < 1) (fun m => le_refl 0)⟩

set_option maxRecDepth 1000000 in
/-- C5 counterexample: states with all source buffers zero and a strictly
positive density decay rate whose total density strictly grows in one
SimulationStep, refuting the claim and forcing each hypothesis of the
amendment in turn.  First conjunct: the original claim (sum over all grid
cells) fails at a spike state, because the zero-gradient boundary pass copies
the interior spike onto the boundary ring.  The remaining conjuncts show the
interior-cell total itself growing when exactly one amendment hypothesis is
dropped: with a nonzero previous velocity (advection pulls boundary copies
inward), with gravity on (the buoyancy force creates such a flow by itself),
with a nonzero mass-diffusion constant (a relaxation sweep pulls boundary
density inward), with a negative density cell (dissipation raises a negative
value), and with a negative time step (dissipation divides by a number below
one). -/
theorem c5_total_density_grows :
    (totalGrid 1 spikeState.fields.dens
        < totalGrid 1 ((simulationStep 1 spikeState).fields.dens)) ∧
    (sumInterior 2 velGrowState.fields.dens
        < sumInterior 2 ((simulationStep 1 velGrowState).fields.dens)) ∧
    (sumInterior 2 gravGrowState.fields.dens
        < sumInterior 2 ((simulationStep 1 gravGrowState).fields.dens)) ∧
    (sumInterior 1 diffGrowState.fields.dens
        < sumInterior 1 ((simulationStep 1 diffGrowState).fields.dens)) ∧
    (sumInterior 1 negDensState.fields.dens
        < sumInterior 1 ((simulationStep 1 negDensState).fields.dens)) ∧
    (sumInterior 1 spikeState.fields.dens
        < sumInterior 1 ((simulationStep (-(1 / 2)) spikeState).fields.dens)) := by
  refine ⟨by decide, by decide, by decide, by decide, by decide, by decide⟩
